import Mathlib

/-!
Verification of the palette generator and renderer in src/extras/colors.rs.

The program is a closed computation: `generate_palette` builds a fixed
254-entry array of packed 24-bit RGB integers in three phases (6x6x6 cube,
grayscale ramp, literal extras), and `main` renders it to the terminal as
ANSI truecolor blocks.  We embed the generator as explicit state passing
over a `(palette, fill index)` pair and the renderer as a pure string
builder, then settle each specification claim, mostly by evaluation.
-/

set_option maxRecDepth 100000

namespace MagicPlace

/-- The six intensity levels of the RGB cube
(`let levels = [0x00, 0x33, 0x66, 0x99, 0xCC, 0xFF]`). -/
def levels : List Nat := [0x00, 0x33, 0x66, 0x99, 0xCC, 0xFF]

/-- Channel packing as the source writes it: `(r << 16) | (g << 8) | b`.
All operands stay below 2^24, so no `u32` wraparound can occur. -/
def pack (r g b : Nat) : Nat := (r <<< 16) ||| (g <<< 8) ||| b

/-- The fixed literal list of 14 extra colors, in source order. -/
def extras : List Nat :=
  [0xFF6B6B, 0x4ECDC4, 0x45B7D1, 0x96CEB4, 0xFFA07A,
   0xDDA0DD, 0x20B2AA, 0x778899, 0xBC8F8F, 0xF0E68C,
   0xE6E6FA, 0xFFF0F5, 0x2F4F4F, 0x191970]

/-- Generator state: the 254-slot palette plus the running fill index. -/
abbrev GenSt := List Nat × Nat

/-- One unguarded append step: `palette[idx] = c; idx += 1`. -/
def put (st : GenSt) (c : Nat) : GenSt := (st.1.set st.2 c, st.2 + 1)

/-- Phase 1 of `generate_palette`: the 6x6x6 RGB cube, red outermost,
blue innermost. -/
def phase1 (st : GenSt) : GenSt :=
  levels.foldl (fun st r =>
    levels.foldl (fun st g =>
      levels.foldl (fun st b => put st (pack r g b)) st) st) st

/-- Phase 2 of `generate_palette`: for i = 1..=24 compute
`v = (i * 255) / 25` and append (v,v,v) unless v is one of the six cube
levels (the source spells the test as six inequalities). -/
def phase2 (st : GenSt) : GenSt :=
  (List.range' 1 24).foldl (fun st i =>
    let v := (i * 255) / 25
    if v ≠ 0x00 ∧ v ≠ 0x33 ∧ v ≠ 0x66 ∧ v ≠ 0x99 ∧ v ≠ 0xCC ∧ v ≠ 0xFF then
      put st (pack v v v)
    else st) st

/-- Phase 3 of `generate_palette`: append the extras while `idx < 254`. -/
def phase3 (st : GenSt) : GenSt :=
  extras.foldl (fun st c => if st.2 < 254 then put st c else st) st

/-- The generator's final state, starting from `[0u32; 254]` and index 0. -/
def genState : GenSt := phase3 (phase2 (phase1 (List.replicate 254 0, 0)))

/-- The palette returned by `generate_palette`. -/
def generate_palette : List Nat := genState.1

/-- The palette written out, entry by entry: the 216 cube colors, the 20
surviving grayscale triples, the 14 extras, and four untouched zeros.
Proving `generate_palette` equal to this literal once lets the claim
proofs evaluate over the literal instead of re-running the fold. -/
def paletteVal : List Nat :=
  [0, 51, 102, 153, 204, 255, 13056, 13107, 13158, 13209, 13260, 13311,
   26112, 26163, 26214, 26265, 26316, 26367, 39168, 39219, 39270, 39321,
   39372, 39423, 52224, 52275, 52326, 52377, 52428, 52479, 65280, 65331,
   65382, 65433, 65484, 65535, 3342336, 3342387, 3342438, 3342489, 3342540,
   3342591, 3355392, 3355443, 3355494, 3355545, 3355596, 3355647, 3368448,
   3368499, 3368550, 3368601, 3368652, 3368703, 3381504, 3381555, 3381606,
   3381657, 3381708, 3381759, 3394560, 3394611, 3394662, 3394713, 3394764,
   3394815, 3407616, 3407667, 3407718, 3407769, 3407820, 3407871, 6684672,
   6684723, 6684774, 6684825, 6684876, 6684927, 6697728, 6697779, 6697830,
   6697881, 6697932, 6697983, 6710784, 6710835, 6710886, 6710937, 6710988,
   6711039, 6723840, 6723891, 6723942, 6723993, 6724044, 6724095, 6736896,
   6736947, 6736998, 6737049, 6737100, 6737151, 6749952, 6750003, 6750054,
   6750105, 6750156, 6750207, 10027008, 10027059, 10027110, 10027161,
   10027212, 10027263, 10040064, 10040115, 10040166, 10040217, 10040268,
   10040319, 10053120, 10053171, 10053222, 10053273, 10053324, 10053375,
   10066176, 10066227, 10066278, 10066329, 10066380, 10066431, 10079232,
   10079283, 10079334, 10079385, 10079436, 10079487, 10092288, 10092339,
   10092390, 10092441, 10092492, 10092543, 13369344, 13369395, 13369446,
   13369497, 13369548, 13369599, 13382400, 13382451, 13382502, 13382553,
   13382604, 13382655, 13395456, 13395507, 13395558, 13395609, 13395660,
   13395711, 13408512, 13408563, 13408614, 13408665, 13408716, 13408767,
   13421568, 13421619, 13421670, 13421721, 13421772, 13421823, 13434624,
   13434675, 13434726, 13434777, 13434828, 13434879, 16711680, 16711731,
   16711782, 16711833, 16711884, 16711935, 16724736, 16724787, 16724838,
   16724889, 16724940, 16724991, 16737792, 16737843, 16737894, 16737945,
   16737996, 16738047, 16750848, 16750899, 16750950, 16751001, 16751052,
   16751103, 16763904, 16763955, 16764006, 16764057, 16764108, 16764159,
   16776960, 16777011, 16777062, 16777113, 16777164, 16777215, 657930,
   1315860, 1973790, 2631720, 4013373, 4671303, 5329233, 5987163, 7368816,
   8026746, 8684676, 9342606, 10724259, 11382189, 12040119, 12698049,
   14079702, 14737632, 15395562, 16053492, 16739179, 5164484, 4569041,
   9883316, 16752762, 14524637, 2142890, 7833753, 12357519, 15787660,
   15132410, 16773365, 3100495, 1644912, 0, 0, 0, 0]

theorem generate_palette_val : generate_palette = paletteVal := by decide

theorem genState_idx_val : genState.2 = 250 := by decide

/-- One rendered block, exactly as `main` prints it:
`ESC[48;2;R;G;Bm` then three spaces then `ESC[0m`, with channels
extracted by `(color >> 16) & 0xFF`, `(color >> 8) & 0xFF`, `color & 0xFF`. -/
def blockStr (color : Nat) : String :=
  let r := (color >>> 16) &&& 0xFF
  let g := (color >>> 8) &&& 0xFF
  let b := color &&& 0xFF
  "\x1b[48;2;" ++ toString r ++ ";" ++ toString g ++ ";" ++ toString b ++
    "m   " ++ "\x1b[0m"

/-- The RGB-cube section of `main`: per red level a header line, then
6 rows of 6 blocks, reading `palette[r_idx*36 + g_idx*6 + b_idx]`. -/
def cubeSection : String :=
  String.join ((List.range 6).map (fun r_idx =>
    "\nRed level " ++ toString (r_idx + 1) ++ "/6:\n" ++
    String.join ((List.range 6).map (fun g_idx =>
      String.join ((List.range 6).map (fun b_idx =>
        blockStr (generate_palette.getD (r_idx * 36 + g_idx * 6 + b_idx) 0)))
        ++ "\n"))))

/-- The grayscale section of `main`: a header naming the range 216 and
216 + 24 - 1, then blocks for indices 216..240 and a newline. -/
def graySection : String :=
  "\nGrayscale (" ++ toString 216 ++ "–" ++ toString (216 + 24 - 1) ++ "):\n" ++
  String.join ((List.range' 216 24).map (fun idx =>
    blockStr (generate_palette.getD idx 0))) ++ "\n"

/-- The extras section of `main`: a header, then blocks for indices
240..254 with a newline after every 7th block, then a final newline. -/
def extrasSection : String :=
  "\nExtra colors (240–253):\n" ++
  String.join ((List.range' 240 14).map (fun idx =>
    blockStr (generate_palette.getD idx 0) ++
      (if (idx - 240 + 1) % 7 == 0 then "\n" else ""))) ++ "\n"

/-- Everything `main` writes to standard output, in program order. -/
def main_output : String :=
  "Color Palette (254 colors arranged in gradient grid)\n\n" ++
  "RGB Cube (216 colors):\n" ++ cubeSection ++ graySection ++ extrasSection

/-! Specification-side definitions, written from the specification's own
wording so that the claims can compare them with the source embedding. -/

/-- The spec's skip test: v is one of the six cube levels, written with
the spec's decimal constants 0, 51, 102, 153, 204, 255. -/
def isCubeLevelSpec (v : Nat) : Bool :=
  decide (v ∈ ([0, 51, 102, 153, 204, 255] : List Nat))

/-- The grayscale entries the spec demands: for i = 1..24 in increasing
order, keep v = (i*255)/25 exactly when it is not a cube level, and pack
it as the triple (v, v, v). -/
def grayValuesSpec : List Nat :=
  ((List.range' 1 24).filter (fun i => ! isCubeLevelSpec ((i * 255) / 25))).map
    (fun i => pack ((i * 255) / 25) ((i * 255) / 25) ((i * 255) / 25))

/-- The spec's rendered block: truecolor escape, three blanks, reset,
with the channels described arithmetically as base-256 digits. -/
def blockStrSpec (c : Nat) : String :=
  "\x1b[48;2;" ++ toString ((c / 65536) % 256) ++ ";" ++
    toString ((c / 256) % 256) ++ ";" ++ toString (c % 256) ++
    "m" ++ "   " ++ "\x1b[0m"

/-- The cube section the spec describes: six headers for N = 1..6, each
followed by six rows of six blocks, the block at (r, g, b) showing the
palette entry at index r*36 + g*6 + b. -/
def cubeSectionSpec : String :=
  String.join ((List.range 6).map (fun n =>
    "\nRed level " ++ toString (n + 1) ++ "/6:\n" ++
    String.join ((List.range 6).map (fun g =>
      String.join ((List.range 6).map (fun b =>
        blockStrSpec (generate_palette.getD (n * 36 + g * 6 + b) 0))) ++ "\n"))))

/-- The grayscale section the spec describes: one row of 24 blocks for
palette indices 216 through 239 inclusive. -/
def graySectionSpec : String :=
  "\nGrayscale (216–239):\n" ++
  String.join ((List.range 24).map (fun k =>
    blockStrSpec (generate_palette.getD (216 + k) 0))) ++ "\n"

/-- The extras section the spec describes: two full rows of seven blocks
covering palette indices 240 through 253, each row ended by a newline,
then the closing newline. -/
def extrasSectionSpec : String :=
  "\nExtra colors (240–253):\n" ++
  String.join ((List.range 2).map (fun row =>
    String.join ((List.range 7).map (fun k =>
      blockStrSpec (generate_palette.getD (240 + 7 * row + k) 0))) ++ "\n")) ++
  "\n"

/-! Claims. -/

/-- Claim C2: for all r, g, b below 6 the palette entry at index
r*36 + g*6 + b is the packing of the corresponding levels; indices 0-215
are exactly the cube product in row-major order with no repetition, with
palette[0] = 0x000000 and palette[215] = 0xFFFFFF. -/
theorem c2_cube_layout :
    (∀ r < 6, ∀ g < 6, ∀ b < 6,
      generate_palette.getD (r * 36 + g * 6 + b) 0 =
        pack (levels.getD r 0) (levels.getD g 0) (levels.getD b 0)) ∧
    generate_palette.take 216 =
      levels.flatMap (fun r => levels.flatMap (fun g => levels.map (fun b => pack r g b))) ∧
    (generate_palette.take 216).Nodup ∧
    generate_palette.getD 0 0 = 0x000000 ∧
    generate_palette.getD 215 0 = 0xFFFFFF := by
  rw [generate_palette_val]; decide

/-- Witness for C2 at (r, g, b) = (3, 2, 1). -/
theorem c2_cube_layout_witness :
    generate_palette.getD (3 * 36 + 2 * 6 + 1) 0 =
      pack (levels.getD 3 0) (levels.getD 2 0) (levels.getD 1 0) :=
  c2_cube_layout.1 3 (by decide) 2 (by decide) 1 (by decide)

/-- Claim C3: the grayscale phase appends, for i = 1..24 in increasing
order, exactly the non-cube-level values v = (i*255)/25 as packed triples
(v, v, v), contiguously, the first landing at index 216. -/
theorem c3_grayscale_phase :
    (generate_palette.drop 216).take grayValuesSpec.length = grayValuesSpec ∧
    generate_palette.getD 216 0 =
      pack ((1 * 255) / 25) ((1 * 255) / 25) ((1 * 255) / 25) := by
  rw [generate_palette_val]; decide

/-- Claim C4: the extras phase appends the 14 literal colors in order,
immediately after the last grayscale entry, under the guard idx < 254,
and with this data all 14 fit (no truncation). -/
theorem c4_extras_phase :
    (generate_palette.drop (216 + grayValuesSpec.length)).take 14 = extras ∧
    genState.2 = 216 + grayValuesSpec.length + 14 ∧
    216 + grayValuesSpec.length + 14 ≤ 254 := by
  rw [generate_palette_val, genState_idx_val]; decide

/-- Claim C5: generate_palette returns exactly 254 entries, and every
slot at or beyond the final fill index still holds 0x000000. -/
theorem c5_palette_size_and_zero_fill :
    generate_palette.length = 254 ∧
    ∀ j < 254, genState.2 ≤ j → generate_palette.getD j 0 = 0 := by
  rw [generate_palette_val, genState_idx_val]; decide

/-- Witness for C5 at slot 252. -/
theorem c5_palette_size_and_zero_fill_witness :
    generate_palette.getD 252 0 = 0 :=
  c5_palette_size_and_zero_fill.2 252 (by decide) (by decide)

/-- Claim C9: the grayscale phase appends exactly 20 entries, the skip
rule firing exactly at i = 5, 10, 15, 20; grayscale occupies indices
216-235, the extras 236-249, and 250-253 stay black; hence the rendered
grayscale row shows the 20 grays then the first 4 extras, and the
rendered extras rows show the last 10 extras then 4 black blocks. -/
theorem c9_actual_layout :
    (List.range' 1 24).filter
        (fun i => isCubeLevelSpec ((i * 255) / 25)) = [5, 10, 15, 20] ∧
    grayValuesSpec.length = 20 ∧
    (generate_palette.drop 216).take 20 = grayValuesSpec ∧
    (generate_palette.drop 236).take 14 = extras ∧
    (generate_palette.drop 250).take 4 = [0, 0, 0, 0] ∧
    (List.range' 216 24).map (fun i => generate_palette.getD i 0) =
      grayValuesSpec ++ extras.take 4 ∧
    (List.range' 240 14).map (fun i => generate_palette.getD i 0) =
      extras.drop 4 ++ [0, 0, 0, 0] := by
  rw [generate_palette_val]; decide

/-- Claim C1 as stated is false on the code: the three phases advance the
fill index to 250, not 254, and index 236 — inside the renderer's fixed
grayscale range 216..240 — already holds the first extras color rather
than a phase-2 grayscale entry. -/
theorem c1_counterexample :
    genState.2 = 250 ∧ genState.2 ≠ 254 ∧
    generate_palette.getD 236 0 = extras.getD 0 0 := by
  rw [generate_palette_val, genState_idx_val]; decide

/-- Claim C1 amended: the three phases together append exactly 250
entries (216 cube + 20 grayscale + 14 extras), so indices 250-253 are
never written and keep 0x000000, and the phase boundaries sit at 216,
236 and 250 rather than at the renderer's fixed 216, 240 and 254. -/
theorem c1_amended :
    genState.2 = 250 ∧
    (generate_palette.drop 216).take 20 = grayValuesSpec ∧
    (generate_palette.drop 236).take 14 = extras ∧
    generate_palette.getD 250 0 = 0 ∧ generate_palette.getD 251 0 = 0 ∧
    generate_palette.getD 252 0 = 0 ∧ generate_palette.getD 253 0 = 0 := by
  rw [generate_palette_val, genState_idx_val]; decide

/-- The shift-and-mask channel extraction of the renderer agrees with
the base-256 digit description used on the specification side, so the
two block builders agree on every color. -/
theorem blockStr_agrees (c : Nat) : blockStr c = blockStrSpec c := by
  have h8 : ∀ x : Nat, x &&& 0xFF = x % 256 := fun x => by
    have h := Nat.and_pow_two_sub_one_eq_mod x 8
    norm_num at h
    exact h
  unfold blockStr blockStrSpec
  rw [h8, h8, h8, Nat.shiftRight_eq_div_pow, Nat.shiftRight_eq_div_pow,
    show (2 : Nat) ^ 16 = 65536 from rfl, show (2 : Nat) ^ 8 = 256 from rfl]
  simp only [String.append_assoc]
  rfl

/-- Claim C6: the cube section printed by `main` is exactly six headers
for red levels 1..6, each followed by six rows of six truecolor blocks,
the block at (r, g, b) rendering the palette entry at index
r*36 + g*6 + b with its channels shown as base-256 digits. -/
theorem c6_cube_render : cubeSection = cubeSectionSpec := by
  unfold cubeSection cubeSectionSpec
  simp only [blockStr_agrees]

/-- Claim C7: the grayscale section is one row of 24 blocks for palette
indices 216..239, and the extras section covers indices 240..253 with a
newline after every 7th block, i.e. exactly two full rows of seven. -/
theorem c7_gray_extras_render :
    graySection = graySectionSpec ∧ extrasSection = extrasSectionSpec := by
  unfold graySection graySectionSpec extrasSection extrasSectionSpec
  rw [generate_palette_val]
  exact ⟨by decide, by decide⟩

/-- Claim C8: extracting the three channels of any palette entry by
shift and mask and re-packing them reproduces the entry exactly. -/
theorem c8_roundtrip :
    ∀ c ∈ generate_palette,
      pack ((c >>> 16) &&& 0xFF) ((c >>> 8) &&& 0xFF) (c &&& 0xFF) = c := by
  rw [generate_palette_val]; decide

/-- Witness for C8 at the palette entry 0xFF6B6B. -/
theorem c8_roundtrip_witness :
    pack ((0xFF6B6B >>> 16) &&& 0xFF) ((0xFF6B6B >>> 8) &&& 0xFF)
      (0xFF6B6B &&& 0xFF) = 0xFF6B6B :=
  c8_roundtrip 0xFF6B6B (by rw [generate_palette_val]; decide)

/-- Generator state instrumented with the trace of indices written, used
to state the bounds-safety claim C10. -/
structure TSt where
  palette : List Nat
  idx : Nat
  writes : List Nat

/-- `put` with its write index recorded. -/
def putW (st : TSt) (c : Nat) : TSt :=
  ⟨st.palette.set st.idx c, st.idx + 1, st.writes ++ [st.idx]⟩

/-- Phase 1 with write tracing. -/
def phase1W (st : TSt) : TSt :=
  levels.foldl (fun st r =>
    levels.foldl (fun st g =>
      levels.foldl (fun st b => putW st (pack r g b)) st) st) st

/-- Phase 2 with write tracing. -/
def phase2W (st : TSt) : TSt :=
  (List.range' 1 24).foldl (fun st i =>
    let v := (i * 255) / 25
    if v ≠ 0x00 ∧ v ≠ 0x33 ∧ v ≠ 0x66 ∧ v ≠ 0x99 ∧ v ≠ 0xCC ∧ v ≠ 0xFF then
      putW st (pack v v v)
    else st) st

/-- Phase 3 with write tracing. -/
def phase3W (st : TSt) : TSt :=
  extras.foldl (fun st c => if st.idx < 254 then putW st c else st) st

/-- The traced run of the generator. -/
def genStateW : TSt := phase3W (phase2W (phase1W ⟨List.replicate 254 0, 0, []⟩))

/-- Every palette index `main` reads: the cube formula for r, g, b in
0..6, then 216..240 for the grayscale row, then 240..254 for extras. -/
def readIdxs : List Nat :=
  ((List.range 6).flatMap (fun r => (List.range 6).flatMap (fun g =>
    (List.range 6).map (fun b => r * 36 + g * 6 + b)))) ++
  List.range' 216 24 ++ List.range' 240 14

/-- Claim C10: the traced run produces the same palette and final index
as the plain embedding, every write lands at an index below 250 (hence
below the array length 254), and every index `main` reads is below 254:
no indexing operation can reach the out-of-bounds branch. -/
theorem c10_bounds :
    genStateW.palette = generate_palette ∧ genStateW.idx = genState.2 ∧
    genStateW.writes.all (fun j => decide (j < 250)) = true ∧
    readIdxs.all (fun j => decide (j < 254)) = true := by
  rw [generate_palette_val, genState_idx_val]; decide

end MagicPlace
